import Mathlib

/-!
Verification of the clawdbot-feishu outbound delivery pipeline.

Shallow embedding of the source files of the repository:
  * `src/webhook.ts`            — `sendViaWebhook`, `isQuotaError`
  * `src/image-host.ts`         — `uploadToCatbox`, `uploadTo0x0`, `uploadImageToHost`
  * `src/send-media-fallback.ts`— `sendMediaFeishuWithFallback`
  * `src/outbound.ts`           — `feishuOutbound.sendMedia`
  * typing-indicator module     — `addTypingIndicator`, `removeTypingIndicator`

JavaScript strings are modelled as Lean `String`s, buffers as `List Nat`
(byte lists), thrown JS values as `JsVal` (string form plus truthiness),
and every network / filesystem effect as an oracle field of an environment
record.  Each operation returns, besides its result, the list of external
effects it attempted, so that claims about "no call was made" or "at least
one webhook attempt happened" are directly statable.
-/

namespace Clawdbot

/-- ASCII lowercase of one character (the classifier patterns are ASCII). -/
def lowerChar (c : Char) : Char :=
  if 'A' ≤ c ∧ c ≤ 'Z' then Char.ofNat (c.toNat + 32) else c

/-- ASCII lowercasing of a string, modelling `String.prototype.toLowerCase`
on the ASCII range (the only range the patterns in the source use). -/
def asciiLower (s : String) : String :=
  ⟨s.data.map lowerChar⟩

/-- Does `pat` occur as a contiguous substring of `l`?  Models
`String.prototype.includes` on the underlying character lists. -/
def subOccurs (pat : List Char) : List Char → Bool
  | [] => pat.isEmpty
  | c :: t => pat.isPrefixOf (c :: t) || subOccurs pat t

/-- `s.includes(pat)` of JavaScript. -/
def strIncludes (s pat : String) : Bool :=
  subOccurs pat.data s.data

/-- `s.startsWith(pat)` of JavaScript, on the underlying character lists. -/
def jsStartsWith (s pat : String) : Bool :=
  pat.data.isPrefixOf s.data

/-- A JavaScript value as seen by the error-handling code: its string form
`String(v)` and whether the value is falsy (`!v`). -/
structure JsVal where
  str : String
  falsy : Bool
deriving DecidableEq, Repr

/-- An `Error` object (always truthy) whose string form is its message. -/
def JsVal.err (msg : String) : JsVal := ⟨msg, false⟩

/-- The string forms of the JavaScript falsy values
(`false`, `0`/`-0`/`0n`, `""`, `null`, `undefined`, `NaN`). -/
def jsFalsyForms : List String :=
  ["false", "0", "", "null", "undefined", "NaN"]

/-- A `JsVal` is well-formed when, if it is falsy, its string form is the
string form of one of the JavaScript falsy values. -/
def JsVal.wf (e : JsVal) : Prop :=
  e.falsy = true → e.str ∈ jsFalsyForms

/-- `isQuotaError` from `src/webhook.ts`: classify an error as a
quota / rate-limit error by inspecting its string form. -/
def isQuotaError (error : JsVal) : Bool :=
  if error.falsy then false
  else
    let errorStr := error.str
    if strIncludes errorStr "429" then true
    else if strIncludes errorStr "99991403" then true
    else if strIncludes (asciiLower errorStr) "quota"
         || strIncludes (asciiLower errorStr) "rate limit" then true
    else false

/-- The four quota indicators of the classifier, as a predicate on the
string form. -/
def quotaIndicator (s : String) : Bool :=
  strIncludes s "429" || strIncludes s "99991403"
    || strIncludes (asciiLower s) "quota" || strIncludes (asciiLower s) "rate limit"

lemma subOccurs_nil (l : List Char) : subOccurs [] l = true := by
  induction l with
  | nil => rfl
  | cons c t ih => simp [subOccurs, List.isPrefixOf]

lemma subOccurs_append (pat a c : List Char) :
    subOccurs pat (a ++ pat ++ c) = true := by
  induction a with
  | nil =>
    cases pat with
    | nil => simp [subOccurs_nil]
    | cons p t =>
      simp only [List.nil_append, subOccurs, Bool.or_eq_true]
      exact Or.inl (List.isPrefixOf_iff_prefix.mpr (List.prefix_append _ _))
  | cons x xs ih =>
    cases pat with
    | nil => simp [subOccurs_nil]
    | cons p t =>
      simp only [List.cons_append, subOccurs, Bool.or_eq_true]
      refine Or.inr ?_
      simpa using ih

/-- If `s = a ++ pat ++ c` then `strIncludes s pat`. -/
lemma strIncludes_of_eq_append (s a pat c : String) (h : s = a ++ pat ++ c) :
    strIncludes s pat = true := by
  subst h
  show subOccurs pat.data (String.data (a ++ pat ++ c)) = true
  have : String.data (a ++ pat ++ c) = a.data ++ pat.data ++ c.data := by
    simp [String.data_append]
  rw [this]
  exact subOccurs_append _ _ _

/-! ## Webhook sender (`src/webhook.ts`) -/

/-- One element of the interactive card. -/
structure CardElement where
  tag : String
  content : String
deriving DecidableEq, Repr

/-- The card configuration object. -/
structure CardConfig where
  wide_screen_mode : Bool
deriving DecidableEq, Repr

/-- The interactive card. -/
structure Card where
  config : CardConfig
  elements : List CardElement
deriving DecidableEq, Repr

/-- The JSON body POSTed by `sendViaWebhook`. -/
structure WebhookPayload where
  msg_type : String
  card : Card
deriving DecidableEq, Repr

/-- The full set of properties the repository ever passes to
`sendViaWebhook`.  `SendWebhookParams` in `src/webhook.ts` declares only
`webhookUrl`, `text`, `mentions`; the media-fallback call site additionally
passes `imageKey`, which the destructuring in the function
`const { webhookUrl, text, mentions } = params` never reads. -/
structure SendWebhookCall where
  webhookUrl : String
  text : String
  mentions : Option (List String)
  imageKey : Option String
deriving DecidableEq, Repr

/-- The payload construction of `sendViaWebhook` (`src/webhook.ts`, lines
21–41).  `render` stands for the external collaborator
`buildMentionedCardContent`. -/
def webhookPayload (render : List String → String → String)
    (params : SendWebhookCall) : WebhookPayload :=
  let content :=
    match params.mentions with
    | some ms => if ms.length > 0 then render ms params.text else params.text
    | none => params.text
  { msg_type := "interactive"
    card :=
      { config := { wide_screen_mode := true }
        elements := [{ tag := "markdown", content := content }] } }

/-- An HTTP response as consumed by `sendViaWebhook`: transport success
flag, status, and the `code` / `msg` fields of the decoded JSON body. -/
structure WebhookHttpResponse where
  ok : Bool
  status : Nat
  statusText : String
  code : Int
  msg : Option String
deriving DecidableEq, Repr

/-- The result handling of `sendViaWebhook` (`src/webhook.ts`, lines
43–59): fail on non-2xx transport or non-zero application code. -/
def sendViaWebhookResult (resp : WebhookHttpResponse) : Except JsVal Unit :=
  if resp.ok = false then
    .error (JsVal.err
      ("Webhook request failed: " ++ toString resp.status ++ " " ++ resp.statusText))
  else if resp.code ≠ 0 then
    .error (JsVal.err
      ("Webhook send failed: " ++
        (match resp.msg with
         | some m => if m ≠ "" then m else "code " ++ toString resp.code
         | none => "code " ++ toString resp.code)))
  else .ok ()

/-! ## Image host multiplexer (`src/image-host.ts`) -/

/-- Result of an image-host upload. -/
structure ImageHostUploadResult where
  url : String
  deleteUrl : Option String := none
deriving DecidableEq, Repr

/-- An HTTP response as consumed by the host adapters: transport success
flag, status, and the raw text body. -/
structure HostHttpResponse where
  ok : Bool
  status : Nat
  body : String
deriving DecidableEq, Repr

/-- `uploadToCatbox` (`src/image-host.ts`, lines 15–40): accept only a
2xx response whose raw body is a non-empty string starting with
`https://`. -/
def uploadToCatbox (resp : HostHttpResponse) : Except JsVal ImageHostUploadResult :=
  if resp.ok = false then
    .error (JsVal.err ("catbox upload failed: " ++ toString resp.status ++ " - " ++ resp.body))
  else
    let url := resp.body
    if url ≠ "" ∧ jsStartsWith url "https://" then .ok { url := url }
    else .error (JsVal.err ("catbox upload failed: invalid response - " ++ url))

/-- JavaScript `String.prototype.trim` restricted to ASCII whitespace. -/
def jsTrim (s : String) : String :=
  let isWs : Char → Bool := fun c => c = ' ' ∨ c = '\t' ∨ c = '\n' ∨ c = '\r'
  ⟨((s.data.dropWhile isWs).reverse.dropWhile isWs).reverse⟩

/-- `uploadTo0x0` (`src/image-host.ts`, lines 45–69): accept only a 2xx
response whose trimmed body starts with `https://`; return the trimmed
body. -/
def uploadTo0x0 (resp : HostHttpResponse) : Except JsVal ImageHostUploadResult :=
  if resp.ok = false then
    .error (JsVal.err ("0x0.st upload failed: " ++ toString resp.status ++ " - " ++ resp.body))
  else
    let url := resp.body
    if url ≠ "" ∧ jsStartsWith (jsTrim url) "https://" then .ok { url := jsTrim url }
    else .error (JsVal.err ("0x0.st upload failed: invalid response - " ++ url))

/-- Which host adapters a run of the multiplexer attempted, in order. -/
inductive HostService where
  | catbox
  | x0
deriving DecidableEq, Repr

/-- The environment of one `uploadImageToHost` run: the HTTP responses the
two services would give to the upload of the buffer at hand. -/
structure HostEnv where
  catboxResp : HostHttpResponse
  x0Resp : HostHttpResponse

/-- The `for`-loop of `uploadImageToHost` (`src/image-host.ts`, lines
83–94) over the remaining services, threading `lastError`. -/
def tryHostServices (lastError : Option JsVal) :
    List (HostService × Except JsVal ImageHostUploadResult) →
    Except JsVal ImageHostUploadResult × List HostService
  | [] =>
    (.error (JsVal.err
      ("All image hosting services failed. Last error: " ++
        (match lastError with | some e => e.str | none => "undefined"))), [])
  | (svc, attempt) :: rest =>
    match attempt with
    | .ok r => (.ok r, [svc])
    | .error e =>
      let (res, tried) := tryHostServices (some e) rest
      (res, svc :: tried)

/-- `uploadImageToHost` (`src/image-host.ts`, lines 75–98): try catbox
then 0x0.st, return the first success, aggregate error otherwise.  Also
returns the list of services attempted. -/
def uploadImageToHost (env : HostEnv) :
    Except JsVal ImageHostUploadResult × List HostService :=
  tryHostServices none
    [(.catbox, uploadToCatbox env.catboxResp), (.x0, uploadTo0x0 env.x0Resp)]

/-! ## Path helpers used by `src/send-media-fallback.ts` -/

/-- Replace the first occurrence of a non-empty pattern. -/
def replaceFirstAux (pat repl : List Char) : List Char → List Char
  | [] => []
  | c :: t =>
    if pat.isPrefixOf (c :: t) then repl ++ (c :: t).drop pat.length
    else c :: replaceFirstAux pat repl t

/-- JavaScript `s.replace(pat, repl)` with a string pattern: replaces only
the first occurrence; with an empty pattern, prepends the replacement. -/
def jsReplaceFirst (s pat repl : String) : String :=
  match pat.data with
  | [] => ⟨repl.data ++ s.data⟩
  | _ => ⟨replaceFirstAux pat.data repl.data s.data⟩

/-- Index of the last occurrence of `c` in `l`. -/
def lastIdxOf (c : Char) (l : List Char) : Option Nat :=
  match l.reverse.findIdx? (· == c) with
  | none => none
  | some i => some (l.length - 1 - i)

/-- The basename part of a POSIX path: everything after the last `/`. -/
def posixBasename (s : String) : List Char :=
  match lastIdxOf '/' s.data with
  | none => s.data
  | some i => s.data.drop (i + 1)

/-- The Node `path.extname` function: the substring of the basename from its last
`.`, empty when there is no dot or the only dot leads the basename. -/
def extname (s : String) : String :=
  let b := posixBasename s
  match lastIdxOf '.' b with
  | none => ""
  | some 0 => ""
  | some i => ⟨b.drop i⟩

/-- Is `c` an ASCII letter (`[a-zA-Z]`)? -/
def isAsciiAlpha (c : Char) : Bool :=
  ('a' ≤ c ∧ c ≤ 'z') ∨ ('A' ≤ c ∧ c ≤ 'Z')

/-- The regex test `/^[a-zA-Z]:/` of the local-path check. -/
def driveLetterTest (s : String) : Bool :=
  match s.data with
  | c0 :: c1 :: _ => isAsciiAlpha c0 && c1 = ':'
  | _ => false

/-- The local-path classification of `src/send-media-fallback.ts`, line 83:
`mediaUrl.startsWith("/") || mediaUrl.startsWith("~") || /^[a-zA-Z]:/.test(mediaUrl)`. -/
def isLocalPath (mediaUrl : String) : Bool :=
  jsStartsWith mediaUrl "/" || jsStartsWith mediaUrl "~" || driveLetterTest mediaUrl

/-- The file-path resolution of lines 90–92: expand a leading `~` against
`process.env.HOME ?? ""`, otherwise drop a `file://` occurrence. -/
def resolveLocalPath (home : Option String) (mediaUrl : String) : String :=
  if jsStartsWith mediaUrl "~" then jsReplaceFirst mediaUrl "~" (home.getD "")
  else jsReplaceFirst mediaUrl "file://" ""

/-! ## Media delivery orchestrator (`src/send-media-fallback.ts`) -/

/-- The result shape returned by the send functions. -/
structure FeishuSendResult where
  messageId : String
  chatId : String
deriving DecidableEq, Repr

/-- An HTTP response as consumed by the remote-image fetch. -/
structure FetchResponse where
  ok : Bool
  status : Nat
  body : List Nat
deriving DecidableEq, Repr

/-- An external effect attempted by the orchestrator. -/
inductive MediaEvent where
  | readLocalFile (path : String)
  | fetchRemote (url : String)
  | uploadFeishu (buffer : List Nat)
  | uploadHost (buffer : List Nat)
  | webhook (call : SendWebhookCall)
deriving DecidableEq, Repr

/-- The environment of one `sendMediaFeishuWithFallback` run: outcomes of
every collaborator call it may make.  `chatIdOf` is the result of
`normalizeFeishuTarget(to)`; `webhookUrl` the `webhookUrl` of the group
configuration resolved for the normalized target. -/
structure MediaEnv where
  feishuConfigured : Bool
  chatIdOf : Option String
  primary : Except JsVal FeishuSendResult
  webhookUrl : Option String
  home : Option String
  fileExists : String → Bool
  readFile : String → List Nat
  fetch : String → FetchResponse
  uploadImage : List Nat → Except JsVal String
  hostUpload : List Nat → Except JsVal ImageHostUploadResult
  webhook : SendWebhookCall → Except JsVal Unit

/-- The extensions the webhook fallback treats as images (line 57). -/
def imageExtensions : List String :=
  [".jpg", ".jpeg", ".png", ".gif", ".webp", ".bmp", ".ico", ".tiff"]

/-- The configuration error thrown when a quota failure finds no webhook
URL (lines 45–48); names the normalized target and the config key. -/
def quotaNoWebhookMessage (error : JsVal) (chatId : String) : String :=
  "Feishu API quota exceeded (" ++ error.str ++ "). No webhook configured for fallback. " ++
    "Add webhookUrl to channels.feishu.groups[\"" ++ chatId ++ "\"].webhookUrl in config."

/-- Image acquisition (lines 82–110): read a local file or fetch a remote
URL, returning the buffer and the effect attempted. -/
def acquireImage (env : MediaEnv) (mediaUrl : String) :
    Except JsVal (List Nat) × List MediaEvent :=
  if isLocalPath mediaUrl then
    let filePath := resolveLocalPath env.home mediaUrl
    if env.fileExists filePath then
      (.ok (env.readFile filePath), [.readLocalFile filePath])
    else
      (.error (JsVal.err ("Local file not found: " ++ filePath)), [.readLocalFile filePath])
  else
    let response := env.fetch mediaUrl
    if response.ok then (.ok response.body, [.fetchRemote mediaUrl])
    else
      (.error (JsVal.err ("Failed to fetch image from URL: " ++ toString response.status)),
        [.fetchRemote mediaUrl])

/-- The `catch (uploadError)` block (lines 136–183): optionally re-host the
image, then send a fallback text via webhook.  A failure of that webhook
call is returned as an error (the outer catch picks it up). -/
def handleUploadError (env : MediaEnv) (webhookUrl mediaUrl chatId : String)
    (buffer : List Nat) (uploadError : JsVal) :
    Except JsVal FeishuSendResult × List MediaEvent :=
  let isQuotaErr := isQuotaError uploadError
  let hostStep : Option String × List MediaEvent :=
    if isQuotaErr then
      match env.hostUpload buffer with
      | .ok result => (some result.url, [.uploadHost buffer])
      | .error _ => (none, [.uploadHost buffer])
    else (none, [])
  let fallbackText :=
    match hostStep.1 with
    | some imageUrl => "📷 图片链接：" ++ imageUrl
    | none =>
      if isQuotaErr then "⚠️ 图片上传受限，暂时无法发送图片\n\n图片路径：" ++ mediaUrl
      else "📎 " ++ mediaUrl
  let call : SendWebhookCall := ⟨webhookUrl, fallbackText, none, none⟩
  match env.webhook call with
  | .ok _ => (.ok ⟨"webhook-sent", chatId⟩, hostStep.2 ++ [.webhook call])
  | .error e => (.error e, hostStep.2 ++ [.webhook call])

/-- The `catch (outerError)` block (lines 184–200): degrade to a plain
link message via webhook; a failure of that call propagates. -/
def outerCatch (env : MediaEnv) (webhookUrl mediaUrl chatId : String) :
    Except JsVal FeishuSendResult × List MediaEvent :=
  let call : SendWebhookCall := ⟨webhookUrl, "📎 " ++ mediaUrl, none, none⟩
  match env.webhook call with
  | .ok _ => (.ok ⟨"webhook-sent", chatId⟩, [.webhook call])
  | .error e => (.error e, [.webhook call])

/-- The image branch of the fallback (lines 77–200): acquire, re-upload,
and degrade, with the nested try/catch structure of the source. -/
def imageFallback (env : MediaEnv) (webhookUrl mediaUrl chatId : String) :
    Except JsVal FeishuSendResult × List MediaEvent :=
  let (acqRes, acqEv) := acquireImage env mediaUrl
  match acqRes with
  | .error _ =>
    let (res, ev) := outerCatch env webhookUrl mediaUrl chatId
    (res, acqEv ++ ev)
  | .ok buffer =>
    match env.uploadImage buffer with
    | .ok imageKey =>
      let call : SendWebhookCall := ⟨webhookUrl, "", none, some imageKey⟩
      let ev₁ := acqEv ++ [.uploadFeishu buffer, .webhook call]
      match env.webhook call with
      | .ok _ => (.ok ⟨"webhook-sent", chatId⟩, ev₁)
      | .error webhookErr =>
        match handleUploadError env webhookUrl mediaUrl chatId buffer webhookErr with
        | (.ok r, ev₂) => (.ok r, ev₁ ++ ev₂)
        | (.error _, ev₂) =>
          let (res, ev₃) := outerCatch env webhookUrl mediaUrl chatId
          (res, ev₁ ++ ev₂ ++ ev₃)
    | .error uploadError =>
      let ev₁ := acqEv ++ [.uploadFeishu buffer]
      match handleUploadError env webhookUrl mediaUrl chatId buffer uploadError with
      | (.ok r, ev₂) => (.ok r, ev₁ ++ ev₂)
      | (.error _, ev₂) =>
        let (res, ev₃) := outerCatch env webhookUrl mediaUrl chatId
        (res, ev₁ ++ ev₂ ++ ev₃)

/-- `sendMediaFeishuWithFallback` (`src/send-media-fallback.ts`, lines
15–202), as a function of its collaborator outcomes; returns its result
and the list of external effects attempted, in order. -/
def sendMediaFeishuWithFallback (env : MediaEnv) (tgt mediaUrl : String) :
    Except JsVal FeishuSendResult × List MediaEvent :=
  if env.feishuConfigured = false then
    (.error (JsVal.err "Feishu channel not configured"), [])
  else
    match env.chatIdOf with
    | none => (.error (JsVal.err ("Invalid Feishu target: " ++ tgt)), [])
    | some chatId =>
      match env.primary with
      | .ok result => (.ok result, [])
      | .error error =>
        if isQuotaError error = false then (.error error, [])
        else
          match env.webhookUrl with
          | none => (.error (JsVal.err (quotaNoWebhookMessage error chatId)), [])
          | some webhookUrl =>
            let ext := asciiLower (extname mediaUrl)
            let isImage := imageExtensions.contains ext
            if isImage = false then
              let call : SendWebhookCall := ⟨webhookUrl, "📎 " ++ mediaUrl, none, none⟩
              match env.webhook call with
              | .ok _ => (.ok ⟨"webhook-sent", chatId⟩, [.webhook call])
              | .error e => (.error e, [.webhook call])
            else
              imageFallback env webhookUrl mediaUrl chatId

/-! ## Outbound facade (`src/outbound.ts`) -/

/-- JavaScript truthiness of an optional string (`undefined` and `""` are
falsy). -/
def optStrTruthy : Option String → Bool
  | some s => s ≠ ""
  | none => false

/-- A call made by the facade to one of the two send pipelines. -/
inductive OutboundEvent where
  | textSend (text : String)
  | mediaSend (mediaUrl : String)
deriving DecidableEq, Repr

/-- The environment of one `feishuOutbound.sendMedia` run: the outcomes of
`sendMessageFeishuWithFallback` (per text) and
`sendMediaFeishuWithFallback` (per media URL). -/
structure OutboundEnv where
  sendText : String → Except JsVal FeishuSendResult
  sendMedia : String → Except JsVal FeishuSendResult

/-- The uniform result returned to the host. -/
structure OutboundResult where
  channel : String
  messageId : String
  chatId : String
deriving DecidableEq, Repr

/-- `feishuOutbound.sendMedia` (`src/outbound.ts`, lines 15–39): text
first when non-blank, then media with a link-message fallback, else the
trailing text send.  Returns the result and the pipeline calls made, in
order. -/
def feishuOutboundSendMedia (env : OutboundEnv)
    (text : Option String) (mediaUrl : Option String) :
    Except JsVal OutboundResult × List OutboundEvent :=
  let textStep : Except JsVal Unit × List OutboundEvent :=
    match text with
    | some t =>
      if jsTrim t ≠ "" then
        match env.sendText t with
        | .ok _ => (.ok (), [.textSend t])
        | .error e => (.error e, [.textSend t])
      else (.ok (), [])
    | none => (.ok (), [])
  match textStep with
  | (.error e, ev) => (.error e, ev)
  | (.ok _, ev) =>
    match mediaUrl with
    | some url =>
      (match env.sendMedia url with
       | .ok r => (.ok ⟨"feishu", r.messageId, r.chatId⟩, ev ++ [.mediaSend url])
       | .error _ =>
         let fallbackText := "📎 " ++ url
         match env.sendText fallbackText with
         | .ok r =>
           (.ok ⟨"feishu", r.messageId, r.chatId⟩,
             ev ++ [.mediaSend url, .textSend fallbackText])
         | .error e =>
           (.error e, ev ++ [.mediaSend url, .textSend fallbackText]))
    | none =>
      let t₀ := text.getD ""
      match env.sendText t₀ with
      | .ok r => (.ok ⟨"feishu", r.messageId, r.chatId⟩, ev ++ [.textSend t₀])
      | .error e => (.error e, ev ++ [.textSend t₀])

/-! ## Typing indicator tracker -/

/-- An external effect attempted by the typing-indicator operations. -/
inductive TypingEvent where
  | reactionCreate (messageId : String)
  | webhookCall (call : SendWebhookCall)
  | reactionDelete (messageId : String) (reactionId : String)
deriving DecidableEq, Repr

/-- The state returned by `addTypingIndicator`. -/
structure TypingIndicatorState where
  messageId : String
  reactionId : Option String
  usedWebhook : Bool := false
deriving DecidableEq, Repr

/-- The environment of one typing-indicator call: the outcomes of the
reaction API, target normalization, webhook-URL resolution, and the
webhook send. -/
structure TypingEnv where
  feishuConfigured : Bool
  reactionCreate : Except JsVal (Option String)
  normalize : String → Option String
  webhookUrlFor : String → Option String
  webhook : SendWebhookCall → Except JsVal Unit
  reactionDelete : Except JsVal Unit

/-- `addTypingIndicator` (typing-indicator module, lines 26–92), with the
module-level `sentTypingIndicators` set passed explicitly as `registry`.
Returns the state, the updated registry, and the effects attempted. -/
def addTypingIndicator (env : TypingEnv) (registry : List String)
    (messageId : String) (chatId : Option String) :
    TypingIndicatorState × List String × List TypingEvent :=
  if registry.contains messageId then
    (⟨messageId, none, false⟩, registry, [])
  else if env.feishuConfigured = false then
    (⟨messageId, none, false⟩, registry, [])
  else
    match env.reactionCreate with
    | .ok reactionId =>
      (⟨messageId, reactionId, false⟩, messageId :: registry, [.reactionCreate messageId])
    | .error err =>
      let giveUp : TypingIndicatorState × List String × List TypingEvent :=
        (⟨messageId, none, false⟩, registry, [.reactionCreate messageId])
      if isQuotaError err ∧ optStrTruthy chatId then
        match env.normalize (chatId.getD "") with
        | some normalizedChatId =>
          if normalizedChatId ≠ "" then
            match env.webhookUrlFor normalizedChatId with
            | some webhookUrl =>
              if webhookUrl ≠ "" then
                let call : SendWebhookCall := ⟨webhookUrl, "👀", none, none⟩
                match env.webhook call with
                | .ok _ =>
                  (⟨messageId, none, true⟩, messageId :: registry,
                    [.reactionCreate messageId, .webhookCall call])
                | .error _ =>
                  (⟨messageId, none, false⟩, registry,
                    [.reactionCreate messageId, .webhookCall call])
              else giveUp
            | none => giveUp
          else giveUp
        | none => giveUp
      else giveUp

/-- `removeTypingIndicator` (typing-indicator module, lines 97–120): no-op
without a truthy `reactionId` or configuration; otherwise one deletion
attempt whose failure is swallowed.  The `Except` result shows whether the
call can raise. -/
def removeTypingIndicator (env : TypingEnv) (state : TypingIndicatorState) :
    Except JsVal Unit × List TypingEvent :=
  if optStrTruthy state.reactionId = false then (.ok (), [])
  else if env.feishuConfigured = false then (.ok (), [])
  else
    let rid := state.reactionId.getD ""
    match env.reactionDelete with
    | .ok _ => (.ok (), [.reactionDelete state.messageId rid])
    | .error _ => (.ok (), [.reactionDelete state.messageId rid])

/-! ## The quota classifier (claim C5) -/

lemma isQuotaError_eq_indicator (e : JsVal) :
    isQuotaError e = (!e.falsy && quotaIndicator e.str) := by
  rcases e with ⟨s, f⟩
  cases f
  · simp only [isQuotaError, quotaIndicator, Bool.not_false, Bool.true_and,
      Bool.false_eq_true, if_false]
    cases h1 : strIncludes s "429" <;>
      cases h2 : strIncludes s "99991403" <;>
        cases h3 : strIncludes (asciiLower s) "quota" <;>
          cases h4 : strIncludes (asciiLower s) "rate limit" <;>
            simp [h1, h2, h3, h4]
  · simp [isQuotaError]

/-- Claim C5: `isQuotaError` is a pure predicate on the string form of the
error: any error value whose string form contains `429`, `99991403`, or
(case-insensitively) `quota` / `rate limit` is classified as a quota
error, and any error value whose string form contains none of the four
indicators is not.  The well-formedness hypothesis records the JavaScript
fact that every falsy value has one of six fixed string forms. -/
theorem isQuotaError_classifies (e : JsVal) (hwf : e.wf) :
    (quotaIndicator e.str = true → isQuotaError e = true) ∧
    (quotaIndicator e.str = false → isQuotaError e = false) := by
  constructor
  · intro hpos
    have hfalsy : e.falsy = false := by
      cases hf : e.falsy
      · rfl
      · exfalso
        have hmem := hwf hf
        simp only [jsFalsyForms, List.mem_cons, List.not_mem_nil, or_false] at hmem
        rcases hmem with h1 | h1 | h1 | h1 | h1 | h1 <;>
          (rw [h1] at hpos; exact absurd hpos (by decide))
    rw [isQuotaError_eq_indicator, hfalsy, hpos]
    rfl
  · intro hneg
    rw [isQuotaError_eq_indicator, hneg, Bool.and_false]

/-- Witness for C5: a concrete 429 error is classified as quota, a
concrete unrelated error is not. -/
theorem isQuotaError_classifies_witness :
    isQuotaError ⟨"Error: request failed with status code 429", false⟩ = true ∧
    isQuotaError ⟨"not found", false⟩ = false :=
  ⟨(isQuotaError_classifies ⟨"Error: request failed with status code 429", false⟩
      (by intro h; exact Bool.noConfusion h)).1 (by decide),
   (isQuotaError_classifies ⟨"not found", false⟩
      (by intro h; exact Bool.noConfusion h)).2 (by decide)⟩

/-! ## The webhook payload ignores `imageKey` (claim C3) -/

/-- Claim C3 is false of the code (code bug): the payload POSTed by
`sendViaWebhook` is built from `text` and `mentions` alone — the
`imageKey` property passed by the media fallback is never read, so two
calls differing only in the image key produce identical payloads, and the
obtained image reference is silently dropped. -/
theorem webhookPayload_independent_of_imageKey
    (render : List String → String → String) (url text : String)
    (mentions : Option (List String)) (k₁ k₂ : Option String) :
    webhookPayload render ⟨url, text, mentions, k₁⟩ =
      webhookPayload render ⟨url, text, mentions, k₂⟩ := rfl

/-! ## The image host multiplexer (claim C6) -/

/-- Claim C6: `uploadImageToHost` attempts catbox.moe then 0x0.st in that
fixed order, returns the first success without invoking later adapters,
aggregates the last underlying failure when every adapter fails, and a
2xx response whose body does not begin with `https://` is a failure of
that adapter only. -/
theorem uploadImageToHost_spec (env : HostEnv) :
    (∀ r, uploadToCatbox env.catboxResp = .ok r →
       uploadImageToHost env = (.ok r, [HostService.catbox])) ∧
    (∀ e r, uploadToCatbox env.catboxResp = .error e →
       uploadTo0x0 env.x0Resp = .ok r →
       uploadImageToHost env = (.ok r, [HostService.catbox, HostService.x0])) ∧
    (∀ e₁ e₂, uploadToCatbox env.catboxResp = .error e₁ →
       uploadTo0x0 env.x0Resp = .error e₂ →
       uploadImageToHost env =
         (.error (JsVal.err ("All image hosting services failed. Last error: " ++ e₂.str)),
          [HostService.catbox, HostService.x0])) ∧
    (env.catboxResp.ok = true → jsStartsWith env.catboxResp.body "https://" = false →
       ∃ e, uploadToCatbox env.catboxResp = .error e) := by
  refine ⟨?_, ?_, ?_, ?_⟩
  · intro r h
    simp [uploadImageToHost, tryHostServices, h]
  · intro e r h1 h2
    simp [uploadImageToHost, tryHostServices, h1, h2]
  · intro e₁ e₂ h1 h2
    simp [uploadImageToHost, tryHostServices, h1, h2]
  · intro hok hns
    refine ⟨JsVal.err ("catbox upload failed: invalid response - " ++ env.catboxResp.body), ?_⟩
    simp [uploadToCatbox, hok, hns]

/-- Witness for C6: catbox answers 2xx with a non-`https://` body (an
adapter failure only), 0x0.st answers with a bare `https://` URL; the
multiplexer returns the 0x0.st result after trying both in order. -/
theorem uploadImageToHost_spec_witness :
    uploadImageToHost ⟨⟨true, 200, "http://files.example/ab.png"⟩,
        ⟨true, 200, "https://0x0.st/abc.png"⟩⟩ =
      (.ok ⟨"https://0x0.st/abc.png", none⟩, [HostService.catbox, HostService.x0]) :=
  (uploadImageToHost_spec ⟨⟨true, 200, "http://files.example/ab.png"⟩,
      ⟨true, 200, "https://0x0.st/abc.png"⟩⟩).2.1
    (JsVal.err ("catbox upload failed: invalid response - http://files.example/ab.png"))
    ⟨"https://0x0.st/abc.png", none⟩ rfl rfl

/-! ## The typing-indicator remover (claim C10) -/

/-- Claim C10: `removeTypingIndicator` never raises — its result is always
success, with a missing `reactionId` short-circuiting before any API
call and a failing primary deletion swallowed; hence calling it twice
with the same state is safe. -/
theorem removeTypingIndicator_never_raises (env : TypingEnv) (state : TypingIndicatorState) :
    (removeTypingIndicator env state).1 = .ok () ∧
    (state.reactionId = none → removeTypingIndicator env state = (.ok (), [])) := by
  constructor
  · simp only [removeTypingIndicator]
    split
    · rfl
    · split
      · rfl
      · cases h : env.reactionDelete <;> simp [h]
  · intro h
    simp [removeTypingIndicator, h, optStrTruthy]

/-- Concrete typing environment where every collaborator call succeeds. -/
def typingEnvOk : TypingEnv where
  feishuConfigured := true
  reactionCreate := .ok (some "rx_123")
  normalize := fun s => some s
  webhookUrlFor := fun _ => some "https://open.feishu.cn/hook/y"
  webhook := fun _ => .ok ()
  reactionDelete := .ok ()

/-- Witness for C10: removing with an absent `reactionId` is an immediate
no-op that does not raise. -/
theorem removeTypingIndicator_never_raises_witness :
    removeTypingIndicator typingEnvOk ⟨"om_msg", none, false⟩ = (.ok (), []) :=
  (removeTypingIndicator_never_raises typingEnvOk ⟨"om_msg", none, false⟩).2 rfl

/-! ## The typing-indicator adder (claim C7) -/

/-- Did the attempt of `addTypingIndicator` (at a message not yet in the
registry, with configuration present) deliver an indicator — either
through the primary reaction API or through the webhook fallback?  This
mirrors exactly the success paths of the source. -/
def addAttemptSucceeds (env : TypingEnv) (chatId : Option String) : Bool :=
  env.feishuConfigured &&
    match env.reactionCreate with
    | .ok _ => true
    | .error err =>
      isQuotaError err && optStrTruthy chatId &&
        match env.normalize (chatId.getD "") with
        | some normalizedChatId =>
          if normalizedChatId = "" then false
          else
            match env.webhookUrlFor normalizedChatId with
            | some webhookUrl =>
              if webhookUrl = "" then false
              else
                match env.webhook ⟨webhookUrl, "👀", none, none⟩ with
                | .ok _ => true
                | .error _ => false
            | none => false
        | none => false

lemma addTypingIndicator_registered (env : TypingEnv) (registry : List String)
    (messageId : String) (chatId : Option String)
    (h : registry.contains messageId = true) :
    addTypingIndicator env registry messageId chatId =
      (⟨messageId, none, false⟩, registry, []) := by
  have hmem : messageId ∈ registry := by simpa using h
  simp [addTypingIndicator, h, hmem]

lemma addTypingIndicator_registry (env : TypingEnv) (registry : List String)
    (messageId : String) (chatId : Option String)
    (hnew : registry.contains messageId = false) :
    (addTypingIndicator env registry messageId chatId).2.1 =
      (if addAttemptSucceeds env chatId then messageId :: registry else registry) := by
  have hnm : messageId ∉ registry := by simpa using hnew
  obtain ⟨cfg, rc, nrm, urls, wh, rd⟩ := env
  cases cfg
  · simp [addTypingIndicator, addAttemptSucceeds, hnew, hnm]
  · cases rc with
    | ok rid => simp [addTypingIndicator, addAttemptSucceeds, hnew, hnm]
    | error err =>
      cases hq : isQuotaError err
      · simp [addTypingIndicator, addAttemptSucceeds, hnew, hnm, hq]
      · cases hct : optStrTruthy chatId
        · simp [addTypingIndicator, addAttemptSucceeds, hnew, hnm, hq, hct]
        · cases hn : nrm (chatId.getD "") with
          | none => simp [addTypingIndicator, addAttemptSucceeds, hnew, hnm, hq, hct, hn]
          | some ncid =>
            by_cases hne : ncid = ""
            · simp [addTypingIndicator, addAttemptSucceeds, hnew, hnm, hq, hct, hn, hne]
            · cases hu : urls ncid with
              | none =>
                simp [addTypingIndicator, addAttemptSucceeds, hnew, hnm, hq, hct, hn, hne, hu]
              | some url =>
                by_cases hue : url = ""
                · simp [addTypingIndicator, addAttemptSucceeds, hnew, hnm, hq, hct, hn, hne,
                    hu, hue]
                · cases hw : wh ⟨url, "👀", none, none⟩ <;>
                    simp [addTypingIndicator, addAttemptSucceeds, hnew, hnm, hq, hct, hn, hne,
                      hu, hue, hw]

/-- Claim C7: once a call of `addTypingIndicator` for a message succeeds
(primary reaction API or webhook fallback), the message is registered and
any subsequent call for it returns a state with no reaction id
immediately, attempting no API or webhook call; a failed attempt does not
register the message, so the registry is updated only by successful
sends. -/
theorem addTypingIndicator_at_most_once (env env' : TypingEnv)
    (registry : List String) (messageId : String) (chatId chatId' : Option String)
    (hnew : registry.contains messageId = false) :
    (addAttemptSucceeds env chatId = true →
       (addTypingIndicator env registry messageId chatId).2.1 = messageId :: registry ∧
       addTypingIndicator env' (messageId :: registry) messageId chatId' =
         (⟨messageId, none, false⟩, messageId :: registry, [])) ∧
    (addAttemptSucceeds env chatId = false →
       (addTypingIndicator env registry messageId chatId).2.1 = registry) := by
  constructor
  · intro hs
    refine ⟨?_, ?_⟩
    · rw [addTypingIndicator_registry env registry messageId chatId hnew, hs]
      rfl
    · exact addTypingIndicator_registered env' (messageId :: registry) messageId chatId'
        (by simp [List.contains_cons])
  · intro hs
    rw [addTypingIndicator_registry env registry messageId chatId hnew, hs]
    rfl

/-- Witness for C7: with a fresh registry and a succeeding reaction API,
the first call registers the message and the second call is an immediate
no-op returning no reaction id. -/
theorem addTypingIndicator_at_most_once_witness :
    (addTypingIndicator typingEnvOk [] "om_w7" (some "oc_chat")).2.1 = ["om_w7"] ∧
    addTypingIndicator typingEnvOk ["om_w7"] "om_w7" (some "oc_chat") =
      (⟨"om_w7", none, false⟩, ["om_w7"], []) :=
  (addTypingIndicator_at_most_once typingEnvOk typingEnvOk [] "om_w7"
      (some "oc_chat") (some "oc_chat") rfl).1 rfl

/-! ## Orchestrator support lemmas -/

lemma outerCatch_webhook_mem (env : MediaEnv) (w m ch : String) :
    ∃ c, MediaEvent.webhook c ∈ (outerCatch env w m ch).2 := by
  refine ⟨⟨w, "📎 " ++ m, none, none⟩, ?_⟩
  unfold outerCatch
  cases h : env.webhook ⟨w, "📎 " ++ m, none, none⟩ <;> simp [h]

lemma handleUploadError_webhook_mem (env : MediaEnv) (w m ch : String)
    (buffer : List Nat) (ue : JsVal) :
    ∃ c, MediaEvent.webhook c ∈ (handleUploadError env w m ch buffer ue).2 := by
  simp only [handleUploadError]
  split
  · exact ⟨_, List.mem_append_right _ (List.mem_singleton.mpr rfl)⟩
  · exact ⟨_, List.mem_append_right _ (List.mem_singleton.mpr rfl)⟩

lemma acquireImage_events (env : MediaEnv) (m : String) :
    (acquireImage env m).2 =
      (if isLocalPath m then [MediaEvent.readLocalFile (resolveLocalPath env.home m)]
       else [MediaEvent.fetchRemote m]) := by
  unfold acquireImage
  by_cases h : isLocalPath m = true
  · by_cases h2 : env.fileExists (resolveLocalPath env.home m) = true <;> simp [h, h2]
  · by_cases h2 : (env.fetch m).ok = true <;> simp [h, h2]

lemma imageFallback_events_prefix (env : MediaEnv) (w m ch : String) :
    ∃ rest, (imageFallback env w m ch).2 = (acquireImage env m).2 ++ rest := by
  unfold imageFallback
  rcases hacq : acquireImage env m with ⟨acqRes, acqEv⟩
  cases acqRes with
  | error e1 =>
    rcases ho : outerCatch env w m ch with ⟨r₂, ev₂⟩
    exact ⟨ev₂, by simp⟩
  | ok buffer =>
    cases hup : env.uploadImage buffer with
    | ok imageKey =>
      cases hw : env.webhook ⟨w, "", none, some imageKey⟩ with
      | ok u => exact ⟨[.uploadFeishu buffer, .webhook ⟨w, "", none, some imageKey⟩], by simp [hup, hw]⟩
      | error werr =>
        rcases hh : handleUploadError env w m ch buffer werr with ⟨hr, hev⟩
        cases hr with
        | ok r => exact ⟨[.uploadFeishu buffer, .webhook ⟨w, "", none, some imageKey⟩] ++ hev,
            by simp [hup, hw, hh]⟩
        | error e2 =>
          rcases ho : outerCatch env w m ch with ⟨r₃, ev₃⟩
          exact ⟨[.uploadFeishu buffer, .webhook ⟨w, "", none, some imageKey⟩] ++ hev ++ ev₃,
            by simp [hup, hw, hh, ho]⟩
    | error ue =>
      rcases hh : handleUploadError env w m ch buffer ue with ⟨hr, hev⟩
      cases hr with
      | ok r => exact ⟨[.uploadFeishu buffer] ++ hev, by simp [hup, hh]⟩
      | error e2 =>
        rcases ho : outerCatch env w m ch with ⟨r₃, ev₃⟩
        exact ⟨[.uploadFeishu buffer] ++ hev ++ ev₃, by simp [hup, hh, ho]⟩

lemma imageFallback_upload_mem (env : MediaEnv) (w m ch : String) (buffer : List Nat)
    (h : (acquireImage env m).1 = .ok buffer) :
    MediaEvent.uploadFeishu buffer ∈ (imageFallback env w m ch).2 := by
  unfold imageFallback
  rcases hacq : acquireImage env m with ⟨acqRes, acqEv⟩
  rw [hacq] at h
  simp only at h
  subst h
  cases hup : env.uploadImage buffer with
  | ok imageKey =>
    cases hw : env.webhook ⟨w, "", none, some imageKey⟩ with
    | ok u => simp [hup, hw]
    | error werr =>
      rcases hh : handleUploadError env w m ch buffer werr with ⟨hr, hev⟩
      cases hr with
      | ok r => simp [hup, hw, hh]
      | error e2 =>
        rcases ho : outerCatch env w m ch with ⟨r₃, ev₃⟩
        simp [hup, hw, hh, ho]
  | error ue =>
    rcases hh : handleUploadError env w m ch buffer ue with ⟨hr, hev⟩
    cases hr with
    | ok r => simp [hup, hh]
    | error e2 =>
      rcases ho : outerCatch env w m ch with ⟨r₃, ev₃⟩
      simp [hup, hh, ho]

lemma imageFallback_webhook_mem (env : MediaEnv) (w m ch : String) :
    ∃ c, MediaEvent.webhook c ∈ (imageFallback env w m ch).2 := by
  unfold imageFallback
  rcases hacq : acquireImage env m with ⟨acqRes, acqEv⟩
  cases acqRes with
  | error e1 =>
    obtain ⟨c, hc⟩ := outerCatch_webhook_mem env w m ch
    rcases ho : outerCatch env w m ch with ⟨r₂, ev₂⟩
    rw [ho] at hc
    exact ⟨c, by simpa using List.mem_append_right acqEv hc⟩
  | ok buffer =>
    cases hup : env.uploadImage buffer with
    | ok imageKey =>
      cases hw : env.webhook ⟨w, "", none, some imageKey⟩ with
      | ok u => exact ⟨⟨w, "", none, some imageKey⟩, by simp [hup, hw]⟩
      | error werr =>
        rcases hh : handleUploadError env w m ch buffer werr with ⟨hr, hev⟩
        cases hr with
        | ok r =>
          obtain ⟨c, hc⟩ := handleUploadError_webhook_mem env w m ch buffer werr
          rw [hh] at hc
          exact ⟨c, by simp [hup, hw, hh]; simp at hc; tauto⟩
        | error e2 =>
          obtain ⟨c, hc⟩ := outerCatch_webhook_mem env w m ch
          rcases ho : outerCatch env w m ch with ⟨r₃, ev₃⟩
          rw [ho] at hc
          exact ⟨c, by simp [hup, hw, hh, ho]; simp at hc; tauto⟩
    | error ue =>
      rcases hh : handleUploadError env w m ch buffer ue with ⟨hr, hev⟩
      cases hr with
      | ok r =>
        obtain ⟨c, hc⟩ := handleUploadError_webhook_mem env w m ch buffer ue
        rw [hh] at hc
        exact ⟨c, by simp [hup, hh]; simp at hc; tauto⟩
      | error e2 =>
        obtain ⟨c, hc⟩ := outerCatch_webhook_mem env w m ch
        rcases ho : outerCatch env w m ch with ⟨r₃, ev₃⟩
        rw [ho] at hc
        exact ⟨c, by simp [hup, hh, ho]; simp at hc; tauto⟩

lemma sendMediaFallback_quota_branch (env : MediaEnv) (tgt m chatId webhookUrl : String)
    (e : JsVal) (hcfg : env.feishuConfigured = true) (hchat : env.chatIdOf = some chatId)
    (hprim : env.primary = .error e) (hq : isQuotaError e = true)
    (hurl : env.webhookUrl = some webhookUrl) :
    sendMediaFeishuWithFallback env tgt m =
      (if imageExtensions.contains (asciiLower (extname m)) = false then
        match env.webhook ⟨webhookUrl, "📎 " ++ m, none, none⟩ with
        | .ok _ => (.ok ⟨"webhook-sent", chatId⟩,
            [MediaEvent.webhook ⟨webhookUrl, "📎 " ++ m, none, none⟩])
        | .error err => (.error err,
            [MediaEvent.webhook ⟨webhookUrl, "📎 " ++ m, none, none⟩])
       else imageFallback env webhookUrl m chatId) := by
  simp [sendMediaFeishuWithFallback, hcfg, hchat, hprim, hq, hurl]

lemma subOccurs_mono_left (pat l m : List Char) (h : subOccurs pat m = true) :
    subOccurs pat (l ++ m) = true := by
  induction l with
  | nil => simpa using h
  | cons c t ih =>
    simp only [List.cons_append, subOccurs, Bool.or_eq_true]
    exact Or.inr ih

lemma subOccurs_mono_right (pat m r : List Char) (h : subOccurs pat m = true) :
    subOccurs pat (m ++ r) = true := by
  induction m with
  | nil =>
    have hp : pat = [] := by
      cases pat with
      | nil => rfl
      | cons p t => simp [subOccurs, List.isEmpty] at h
    subst hp
    exact subOccurs_nil _
  | cons c t ih =>
    simp only [subOccurs, Bool.or_eq_true] at h ⊢
    rcases h with h | h
    · left
      have hp := List.isPrefixOf_iff_prefix.mp h
      exact List.isPrefixOf_iff_prefix.mpr
        (by simpa [List.cons_append] using hp.trans (List.prefix_append (c :: t) r))
    · right
      simpa using ih h

/-- A concrete environment: quota-failing primary send, webhook configured,
every later collaborator call succeeding. -/
def mediaEnvQuota : MediaEnv where
  feishuConfigured := true
  chatIdOf := some "oc_chat"
  primary := .error (JsVal.err "Error: 429 Too Many Requests")
  webhookUrl := some "https://open.feishu.cn/hook/z"
  home := some "/home/user"
  fileExists := fun _ => true
  readFile := fun _ => [137, 80, 78, 71]
  fetch := fun _ => ⟨true, 200, [137, 80, 78, 71]⟩
  uploadImage := fun _ => .ok "img_v2_key"
  hostUpload := fun _ => .ok ⟨"https://files.catbox.moe/ab.png", none⟩
  webhook := fun _ => .ok ()

/-! ## Claim C1 -/

/-- Claim C1: after a quota-classified primary failure, once a webhook URL
has been resolved for the normalized target, every exit path of the
fallback state machine attempts at least one `sendViaWebhook` call before
the function returns — no branch consumes the error without a webhook
delivery attempt. -/
theorem sendMediaFallback_always_attempts_webhook
    (env : MediaEnv) (tgt mediaUrl chatId webhookUrl : String) (e : JsVal)
    (hcfg : env.feishuConfigured = true) (hchat : env.chatIdOf = some chatId)
    (hprim : env.primary = .error e) (hq : isQuotaError e = true)
    (hurl : env.webhookUrl = some webhookUrl) :
    ∃ call, MediaEvent.webhook call ∈ (sendMediaFeishuWithFallback env tgt mediaUrl).2 := by
  rw [sendMediaFallback_quota_branch env tgt mediaUrl chatId webhookUrl e hcfg hchat hprim hq hurl]
  by_cases himg : imageExtensions.contains (asciiLower (extname mediaUrl)) = false
  · rw [if_pos himg]
    refine ⟨⟨webhookUrl, "📎 " ++ mediaUrl, none, none⟩, ?_⟩
    cases hw : env.webhook ⟨webhookUrl, "📎 " ++ mediaUrl, none, none⟩ <;> simp [hw]
  · rw [if_neg himg]
    exact imageFallback_webhook_mem env webhookUrl mediaUrl chatId

/-- Witness for C1: concrete quota environment and a PNG path — at least
one webhook call is attempted. -/
theorem sendMediaFallback_always_attempts_webhook_witness :
    ∃ call, MediaEvent.webhook call ∈
      (sendMediaFeishuWithFallback mediaEnvQuota "oc_chat" "/tmp/pic.png").2 :=
  sendMediaFallback_always_attempts_webhook mediaEnvQuota "oc_chat" "/tmp/pic.png" "oc_chat"
    "https://open.feishu.cn/hook/z" (JsVal.err "Error: 429 Too Many Requests")
    rfl rfl rfl (by decide) rfl

/-! ## Claim C4 -/

/-- Claim C4: a quota-classified primary failure with no webhook URL
resolved for the normalized target fails with an error naming the target
and the missing configuration key, with no webhook attempt and no further
fallback (empty effect list). -/
theorem sendMediaFallback_no_webhook_configured
    (env : MediaEnv) (tgt mediaUrl chatId : String) (e : JsVal)
    (hcfg : env.feishuConfigured = true) (hchat : env.chatIdOf = some chatId)
    (hprim : env.primary = .error e) (hq : isQuotaError e = true)
    (hurl : env.webhookUrl = none) :
    sendMediaFeishuWithFallback env tgt mediaUrl =
      (.error (JsVal.err (quotaNoWebhookMessage e chatId)), []) ∧
    strIncludes (quotaNoWebhookMessage e chatId) chatId = true ∧
    strIncludes (quotaNoWebhookMessage e chatId)
      ("channels.feishu.groups[\"" ++ chatId ++ "\"].webhookUrl") = true := by
  refine ⟨?_, ?_, ?_⟩
  · simp [sendMediaFeishuWithFallback, hcfg, hchat, hprim, hq, hurl]
  · exact strIncludes_of_eq_append _
      ("Feishu API quota exceeded (" ++ e.str ++ "). No webhook configured for fallback. " ++
        "Add webhookUrl to channels.feishu.groups[\"")
      chatId "\"].webhookUrl in config." rfl
  · have hC : ("Add webhookUrl to channels.feishu.groups[\"" : String).data =
        ("Add webhookUrl to " : String).data ++
          ("channels.feishu.groups[\"" : String).data := by decide
    have hD : ("\"].webhookUrl in config." : String).data =
        ("\"].webhookUrl" : String).data ++ (" in config." : String).data := by decide
    show subOccurs (String.data ("channels.feishu.groups[\"" ++ chatId ++ "\"].webhookUrl"))
        (String.data (quotaNoWebhookMessage e chatId)) = true
    have hdata : (quotaNoWebhookMessage e chatId).data =
        (("Feishu API quota exceeded (" : String).data ++ e.str.data ++
          ("). No webhook configured for fallback. " : String).data ++
          ("Add webhookUrl to " : String).data) ++
        String.data ("channels.feishu.groups[\"" ++ chatId ++ "\"].webhookUrl") ++
        (" in config." : String).data := by
      simp [quotaNoWebhookMessage, String.data_append, hC, hD, List.append_assoc]
    rw [hdata]
    exact subOccurs_append _ _ _

/-- The quota environment with the webhook URL removed. -/
def mediaEnvQuotaNoHook : MediaEnv := { mediaEnvQuota with webhookUrl := none }

/-- Witness for C4: concrete quota environment with no webhook URL — the
call fails with the remediation message and makes no external attempt. -/
theorem sendMediaFallback_no_webhook_configured_witness :
    sendMediaFeishuWithFallback mediaEnvQuotaNoHook "oc_chat" "/tmp/pic.png" =
      (.error (JsVal.err (quotaNoWebhookMessage
        (JsVal.err "Error: 429 Too Many Requests") "oc_chat")), []) ∧
    strIncludes (quotaNoWebhookMessage
        (JsVal.err "Error: 429 Too Many Requests") "oc_chat") "oc_chat" = true :=
  ⟨(sendMediaFallback_no_webhook_configured mediaEnvQuotaNoHook "oc_chat" "/tmp/pic.png"
      "oc_chat" (JsVal.err "Error: 429 Too Many Requests") rfl rfl rfl (by decide) rfl).1,
   (sendMediaFallback_no_webhook_configured mediaEnvQuotaNoHook "oc_chat" "/tmp/pic.png"
      "oc_chat" (JsVal.err "Error: 429 Too Many Requests") rfl rfl rfl (by decide) rfl).2.1⟩

/-! ## Claim C8 -/

/-- Claim C8: in the quota fallback, a reference ending in `.png`, `.jpg`
or `.webp` is image-eligible — the orchestrator proceeds to acquisition
(first effect is the local read or the remote fetch) and, when acquisition
succeeds, to the platform re-upload; a reference ending in `.pdf` is sent
as a plain link through the webhook sender with no download and no upload
of any kind. -/
theorem sendMediaFallback_media_classification
    (env : MediaEnv) (tgt mediaUrl chatId webhookUrl : String) (e : JsVal)
    (hcfg : env.feishuConfigured = true) (hchat : env.chatIdOf = some chatId)
    (hprim : env.primary = .error e) (hq : isQuotaError e = true)
    (hurl : env.webhookUrl = some webhookUrl) :
    ((asciiLower (extname mediaUrl) = ".png" ∨ asciiLower (extname mediaUrl) = ".jpg" ∨
        asciiLower (extname mediaUrl) = ".webp") →
       (∃ rest, (sendMediaFeishuWithFallback env tgt mediaUrl).2 =
          (if isLocalPath mediaUrl then
             [MediaEvent.readLocalFile (resolveLocalPath env.home mediaUrl)]
           else [MediaEvent.fetchRemote mediaUrl]) ++ rest) ∧
       (∀ buffer, (acquireImage env mediaUrl).1 = .ok buffer →
          MediaEvent.uploadFeishu buffer ∈ (sendMediaFeishuWithFallback env tgt mediaUrl).2)) ∧
    (asciiLower (extname mediaUrl) = ".pdf" →
       sendMediaFeishuWithFallback env tgt mediaUrl =
         (match env.webhook ⟨webhookUrl, "📎 " ++ mediaUrl, none, none⟩ with
          | .ok _ => (.ok ⟨"webhook-sent", chatId⟩,
              [MediaEvent.webhook ⟨webhookUrl, "📎 " ++ mediaUrl, none, none⟩])
          | .error err => (.error err,
              [MediaEvent.webhook ⟨webhookUrl, "📎 " ++ mediaUrl, none, none⟩]))) := by
  rw [sendMediaFallback_quota_branch env tgt mediaUrl chatId webhookUrl e hcfg hchat hprim hq hurl]
  constructor
  · intro himg
    have hcont : imageExtensions.contains (asciiLower (extname mediaUrl)) = true := by
      rcases himg with h | h | h <;> rw [h] <;> decide
    rw [if_neg (by intro hfalse; rw [hcont] at hfalse; exact Bool.noConfusion hfalse)]
    constructor
    · obtain ⟨rest, hr⟩ := imageFallback_events_prefix env webhookUrl mediaUrl chatId
      exact ⟨rest, by rw [hr, acquireImage_events]⟩
    · intro buffer hb
      exact imageFallback_upload_mem env webhookUrl mediaUrl chatId buffer hb
  · intro hpdf
    rw [if_pos (show imageExtensions.contains (asciiLower (extname mediaUrl)) = false by
      rw [hpdf]; decide)]

/-- Witness for C8: a remote PNG proceeds to the remote fetch; a remote
PDF is delivered as a single plain-link webhook call. -/
theorem sendMediaFallback_media_classification_witness :
    (∃ rest, (sendMediaFeishuWithFallback mediaEnvQuota "oc_chat" "https://img.example/a.png").2 =
       (if isLocalPath "https://img.example/a.png" then
          [MediaEvent.readLocalFile (resolveLocalPath mediaEnvQuota.home "https://img.example/a.png")]
        else [MediaEvent.fetchRemote "https://img.example/a.png"]) ++ rest) ∧
    sendMediaFeishuWithFallback mediaEnvQuota "oc_chat" "https://img.example/a.pdf" =
      (.ok ⟨"webhook-sent", "oc_chat"⟩,
        [MediaEvent.webhook ⟨"https://open.feishu.cn/hook/z",
          "📎 " ++ "https://img.example/a.pdf", none, none⟩]) := by
  constructor
  · exact ((sendMediaFallback_media_classification mediaEnvQuota "oc_chat"
      "https://img.example/a.png" "oc_chat" "https://open.feishu.cn/hook/z"
      (JsVal.err "Error: 429 Too Many Requests") rfl rfl rfl (by decide) rfl).1
        (Or.inl (by decide))).1
  · exact (sendMediaFallback_media_classification mediaEnvQuota "oc_chat"
      "https://img.example/a.pdf" "oc_chat" "https://open.feishu.cn/hook/z"
      (JsVal.err "Error: 429 Too Many Requests") rfl rfl rfl (by decide) rfl).2 (by decide)

/-! ## Claim C9 -/

/-- Claim C9, amended: a reference is treated as local exactly when it
begins with a path-root marker, a home-directory marker, or a drive-letter
pattern; local references are read at the resolved path (home marker
expanded, `file://` occurrence dropped), every other reference is fetched
over HTTP, acquisition fails on a missing local file or a non-success
fetch — and a reference beginning with `file://` is never classified as
local, so it is fetched as a remote URL rather than resolved to the named
local file. -/
theorem acquireImage_classification (env : MediaEnv) (mediaUrl : String) :
    (isLocalPath mediaUrl = true →
       acquireImage env mediaUrl =
         (if env.fileExists (resolveLocalPath env.home mediaUrl) then
            .ok (env.readFile (resolveLocalPath env.home mediaUrl))
          else .error (JsVal.err ("Local file not found: " ++ resolveLocalPath env.home mediaUrl)),
          [MediaEvent.readLocalFile (resolveLocalPath env.home mediaUrl)])) ∧
    (isLocalPath mediaUrl = false →
       acquireImage env mediaUrl =
         (if (env.fetch mediaUrl).ok then .ok (env.fetch mediaUrl).body
          else .error (JsVal.err
            ("Failed to fetch image from URL: " ++ toString (env.fetch mediaUrl).status)),
          [MediaEvent.fetchRemote mediaUrl])) ∧
    (jsStartsWith mediaUrl "file://" = true → isLocalPath mediaUrl = false) := by
  refine ⟨?_, ?_, ?_⟩
  · intro h
    by_cases h2 : env.fileExists (resolveLocalPath env.home mediaUrl) = true <;>
      simp [acquireImage, h, h2]
  · intro h
    by_cases h2 : (env.fetch mediaUrl).ok = true <;>
      simp [acquireImage, h, h2]
  · intro h
    obtain ⟨t, ht⟩ := List.isPrefixOf_iff_prefix.mp h
    have hdata : mediaUrl.data = 'f' :: 'i' :: 'l' :: 'e' :: ':' :: '/' :: '/' :: t := by
      rw [← ht]; rfl
    simp [isLocalPath, jsStartsWith, driveLetterTest, hdata, List.isPrefixOf]

/-- Counterexample for C9 as stated: a `file://`-prefixed reference is not
resolved to the named local file — it is classified non-local and fetched
over HTTP (the first and only acquisition effect is the remote fetch). -/
theorem fileUrl_not_local_counterexample :
    isLocalPath "file:///tmp/pic.png" = false ∧
    (acquireImage mediaEnvQuota "file:///tmp/pic.png").2 =
      [MediaEvent.fetchRemote "file:///tmp/pic.png"] ∧
    ∀ p, MediaEvent.readLocalFile p ∉ (acquireImage mediaEnvQuota "file:///tmp/pic.png").2 := by
  have h2 : (acquireImage mediaEnvQuota "file:///tmp/pic.png").2 =
      [MediaEvent.fetchRemote "file:///tmp/pic.png"] := by
    rw [acquireImage_events]
    rw [if_neg (by decide)]
  refine ⟨by decide, h2, ?_⟩
  intro p hp
  rw [h2] at hp
  simp at hp

/-- Witness for C9 (amended): a home-relative PNG is read at the
home-expanded path; a `file://` reference is classified non-local. -/
theorem acquireImage_classification_witness :
    acquireImage mediaEnvQuota "~/pics/a.png" =
      (.ok [137, 80, 78, 71], [MediaEvent.readLocalFile "/home/user/pics/a.png"]) ∧
    isLocalPath "file:///srv/b.png" = false := by
  constructor
  · have h := (acquireImage_classification mediaEnvQuota "~/pics/a.png").1 (by decide)
    rw [h]
    rfl
  · exact (acquireImage_classification mediaEnvQuota "file:///srv/b.png").2.2 (by decide)

/-! ## Claim C2 -/

/-- A concrete facade environment where both pipelines succeed. -/
def outboundEnvOk : OutboundEnv where
  sendText := fun _ => .ok ⟨"om_text", "oc_chat"⟩
  sendMedia := fun _ => .ok ⟨"om_media", "oc_chat"⟩

/-- Claim C2 is false of the code (code bug): for a request with non-empty
text and no media URL, `feishuOutbound.sendMedia` delivers the text body
twice through the text-delivery path — once in the text-first step and
once more in the trailing no-media return step. -/
theorem outbound_text_sent_twice :
    (feishuOutboundSendMedia outboundEnvOk (some "hello") none).2 =
      [OutboundEvent.textSend "hello", OutboundEvent.textSend "hello"] ∧
    ((feishuOutboundSendMedia outboundEnvOk (some "hello") none).2.count
        (OutboundEvent.textSend "hello")) = 2 := by
  constructor <;> rfl

end Clawdbot
